import Mathlib

/-!
Verification of `example/macOS/main.go` of the vz repository.

The Go program is embedded shallowly: pure functions become Lean
functions over `Nat`/`Int` (with Go's `uint` conversion modelled as
reduction modulo 2^64 where it matters), calls into the external `vz`
platform API become oracle parameters (the sequence of answers the
platform would give), and the two asynchronous event sources of `runVM`
(the `Start` completion callback and the `StateChangedNotify` feed)
become an explicit interleaved event stream consumed by the merge
goroutine's `select` loop.
-/

set_option autoImplicit false

namespace VzMacOS

/-- Go errors are modelled by their message strings. -/
abbrev GoError := String

/-- The `vz.VirtualMachineState` enumeration used by `main.go`. -/
inductive VirtualMachineState
  | stopped
  | running
  | paused
  | error
  | starting
  | pausing
  | resuming
  | stopping
deriving DecidableEq, Repr

/-- Go's `uint(x)` conversion applied to an `int` value: reduction modulo 2^64. -/
def goUint64 (x : Int) : Nat := (x % (2 : Int) ^ 64).toNat

/-- The clamp sequence used by both planners in `main.go` (lines 111-118 and
125-132): first the max bound is applied, then the min bound. -/
def clampGo (x mn mx : Nat) : Nat :=
  let a := if x > mx then mx else x
  if a < mn then mn else a

/-- `computeCPUCount` (main.go lines 104-120).  `totalAvailableCPUs` is the
result of `runtime.NumCPU()` (a Go `int`); `minAllowed`/`maxAllowed` are the
platform-reported CPU bounds.  The Go source converts
`totalAvailableCPUs - 1` to `uint`, floors it to 1 via `<= 1`, clamps by the
max bound and then by the min bound.  The function is total: it returns a
plain `uint`, there is no error path. -/
def computeCPUCount (totalAvailableCPUs : Int) (minAllowed maxAllowed : Nat) : Nat :=
  let virtualCPUCount0 := goUint64 (totalAvailableCPUs - 1)
  let virtualCPUCount1 := if virtualCPUCount0 ≤ 1 then 1 else virtualCPUCount0
  let virtualCPUCount2 := if virtualCPUCount1 > maxAllowed then maxAllowed else virtualCPUCount1
  if virtualCPUCount2 < minAllowed then minAllowed else virtualCPUCount2

/-- `computeMemorySize` (main.go lines 122-134): the hard-coded 4 GiB request
clamped by the platform max bound, then the min bound.  Total, no error path. -/
def computeMemorySize (minAllowed maxAllowed : Nat) : Nat :=
  let memorySize0 : Nat := 4 * 1024 * 1024 * 1024
  let memorySize1 := if memorySize0 > maxAllowed then maxAllowed else memorySize0
  if memorySize1 < minAllowed then minAllowed else memorySize1

/-- The spec's error taxonomy entry for inverted planner bounds. -/
inductive ResourceBoundsError
  | inverted
deriving DecidableEq, Repr

/-- Modelled from the spec: the spec's fallible memory planner
(`clampMemory`: default 4 GiB clamped into [min, max], and
"if min > max for either bound, this is a ResourceBoundsError surfaced to
the caller").  This definition follows the SPEC's words, for comparison
with `computeMemorySize`, which is translated from the source and has no
error path. -/
def clampMemorySpec (mn mx : Nat) : Except ResourceBoundsError Nat :=
  if mx < mn then .error .inverted
  else .ok (Nat.max mn (Nat.min (4 * 1024 * 1024 * 1024) mx))

/-- Outcome of `vz.CreateDiskImage` as observed by
`createBlockDeviceConfiguration` (main.go lines 138-142): success, a
failure for which `os.IsExist` holds, or any other failure. -/
inductive DiskImageResult
  | ok
  | errExist
  | errOther (e : GoError)
deriving DecidableEq, Repr

/-- A `vz.DiskImageStorageDeviceAttachment`: the path it was created from and
the read-only flag passed (main.go lines 144-147 pass `false`). -/
structure DiskImageAttachment where
  path : String
  readOnly : Bool
deriving DecidableEq, Repr

/-- A `vz.VirtioBlockDeviceConfiguration` wrapping its attachment. -/
structure VirtioBlockDevice where
  attachment : DiskImageAttachment
deriving DecidableEq, Repr

/-- `createBlockDeviceConfiguration` (main.go lines 136-153).  The two
platform calls are oracle parameters: `createResult` is the outcome of
`vz.CreateDiskImage(diskPath, 64 GiB)` and `attachResult` the outcome of
`vz.NewDiskImageStorageDeviceAttachment(diskPath, false)`.  The source
returns an error only when disk-image creation fails with a non-IsExist
error, or when attachment creation fails; an IsExist failure falls through
to the attachment step exactly like success. -/
def createBlockDeviceConfiguration (diskPath : String)
    (createResult : DiskImageResult)
    (attachResult : Except GoError Unit) : Except GoError VirtioBlockDevice :=
  match createResult with
  | .errOther e => .error ("failed to create disk image: " ++ e)
  | _ =>
    match attachResult with
    | .error e => .error e
    | .ok _ => .ok ⟨⟨diskPath, false⟩⟩

/-- The machine configuration assembled by `setupVMConfiguration`, restricted
to the fields the claims are about. -/
structure VMConfigModel where
  cpuCount : Nat
  memorySize : Nat
  storageDevices : List VirtioBlockDevice
deriving DecidableEq, Repr

/-- `setupVMConfiguration` (main.go lines 212-253), with its fallible
sub-steps as oracle parameters: `blockDev` is the result of
`createBlockDeviceConfiguration` (wrapped on failure, line 224) and
`(validated, validateErr)` the pair returned by `config.Validate()`
(lines 244-250).  Device constructors other than the block device are
infallible in the source and are omitted from the model.  The source
propagates a non-nil validation error wrapped, and turns
`validated == false` with nil error into an explicit
"invalid configuration" error. -/
def setupVMConfiguration (cpuCount memorySize : Nat)
    (blockDev : Except GoError VirtioBlockDevice)
    (validated : Bool) (validateErr : Option GoError) : Except GoError VMConfigModel :=
  match blockDev with
  | .error e => .error ("failed to create block device configuration: " ++ e)
  | .ok d =>
    match validateErr with
    | some e => .error ("failed to validate configuration: " ++ e)
    | none =>
      if !validated then .error "invalid configuration"
      else .ok ⟨cpuCount, memorySize, [d]⟩

/-- One event consumed by the merge goroutine's `select` (main.go lines
58-75): either a state arriving on `vm.StateChangedNotify()` or an error
value arriving on `errCh` (sent by the `Start` completion callback,
lines 52-56). -/
inductive MergeEvent
  | stateChange (s : VirtualMachineState)
  | completionError (e : GoError)
deriving DecidableEq, Repr

/-- An event is terminal for the merge loop when its branch makes the
goroutine return: a Stopped or Stopping notification, or any value
received from `errCh`. -/
def isTerminalEvent : MergeEvent → Bool
  | .stateChange s => s = .stopped || s = .stopping
  | .completionError _ => true

/-- The value the merge goroutine sends on `errCh` when it returns on the
given terminal event: `nil` for a Stopped/Stopping notification (line 67),
the wrapped start error for an `errCh` receive (line 71). -/
def eventOutcome : MergeEvent → Option GoError
  | .stateChange _ => none
  | .completionError e => some ("failed to start vm: " ++ e)

/-- The merge goroutine of `runVM` (main.go lines 58-75), run over an
interleaved stream of events (the `select` consumes whichever source is
ready; the stream fixes one interleaving).  Returns `some r` when the
goroutine returns having sent `r` on `errCh` (`r = none` models sending
`nil`), and `none` when the stream is exhausted with the goroutine still
waiting.  The `log.Println` observations of the source are omitted. -/
def stateMergeLoop : List MergeEvent → Option (Option GoError)
  | [] => none
  | .stateChange s :: rest =>
    if s = VirtualMachineState.stopped || s = VirtualMachineState.stopping then some none
    else stateMergeLoop rest
  | .completionError e :: _ => some (some ("failed to start vm: " ++ e))

/-- Observable trace of one run of the `cleanup` closure (main.go lines
78-93): how many graceful `vm.RequestStop()` calls were issued, how many
forced `vm.Stop(...)` calls were issued, and whether the `for` loop ended
because `vm.CanRequestStop()` returned false (as opposed to the oracle
being exhausted while the loop was still running). -/
structure CleanupTrace where
  requestStops : Nat
  forcedStops : Nat
  loopExited : Bool
deriving DecidableEq, Repr

/-- The body of the `cleanup` closure's `for` loop (main.go lines 79-91),
driven by `can`, the sequence of answers `vm.CanRequestStop()` gives at
successive loop-condition checks, with `i` the loop counter.  When the
condition holds the body issues one `RequestStop`, sleeps 3 seconds, and
issues a forced `vm.Stop` whenever `i > 3`; when the condition fails the
loop exits at once. -/
def cleanupGo : List Bool → Nat → CleanupTrace
  | [], _ => ⟨0, 0, false⟩
  | b :: rest, i =>
    if b then
      let t := cleanupGo rest (i + 1)
      ⟨t.requestStops + 1, t.forcedStops + (if 3 < i then 1 else 0), t.loopExited⟩
    else ⟨0, 0, true⟩

/-- The `cleanup` closure (main.go lines 78-93): the loop counter starts
at 1. -/
def cleanup (can : List Bool) : CleanupTrace := cleanupGo can 1

/-- What `runVM` produces: the cleanup trace, and the value of the final
`return <-errCh` (main.go line 101) — `some r` once a terminal value is
available on `errCh`, `none` when the merge loop never returned (the
receive blocks forever). -/
structure RunOutcome where
  trace : CleanupTrace
  result : Option (Option GoError)
deriving DecidableEq, Repr

/-- `runVM` (main.go lines 36-102) in VM (non-install) mode, as a function
of the context state and the platform oracles.  The Go source never reads
`ctx` inside `runVM`: the context is not consulted by the merge goroutine,
the cleanup loop, or the final channel receive, so the definition — being a
faithful translation — cannot and does not depend on `ctxCancelled`. -/
def runVM (_ctxCancelled : Bool) (can : List Bool) (evs : List MergeEvent) : RunOutcome :=
  { trace := cleanup can
    result := stateMergeLoop evs }

/-- `run` (main.go lines 29-34) with `install = false` just calls `runVM`. -/
def run (ctxCancelled : Bool) (can : List Bool) (evs : List MergeEvent) : RunOutcome :=
  runVM ctxCancelled can evs

/-! ## Helper lemmas -/

/-- For non-inverted bounds the source's max-then-min clamp sequence computes
`max mn (min x mx)`. -/
lemma clampGo_eq (x mn mx : Nat) (h : mn ≤ mx) :
    clampGo x mn mx = Nat.max mn (Nat.min x mx) := by
  unfold clampGo
  dsimp only
  simp only [Nat.max_def, Nat.min_def]
  split_ifs <;> omega

/-- `computeMemorySize` on non-inverted bounds. -/
lemma computeMemorySize_eq (mn mx : Nat) (h : mn ≤ mx) :
    computeMemorySize mn mx = Nat.max mn (Nat.min (4 * 1024 * 1024 * 1024) mx) := by
  unfold computeMemorySize
  dsimp only
  simp only [Nat.max_def, Nat.min_def]
  split_ifs <;> omega

/-- `computeMemorySize` on inverted bounds returns the min bound. -/
lemma computeMemorySize_inverted (mn mx : Nat) (h : mx < mn) :
    computeMemorySize mn mx = mn := by
  unfold computeMemorySize
  dsimp only
  split_ifs <;> omega

/-- `computeCPUCount` on inverted bounds returns the min bound, for every
host CPU count: after the max clamp the value is at most `mx < mn`, so the
min clamp always fires. -/
lemma computeCPUCount_inverted (H : Int) (mn mx : Nat) (h : mx < mn) :
    computeCPUCount H mn mx = mn := by
  unfold computeCPUCount
  dsimp only
  split_ifs <;> omega

/-- With `1 ≤ H ≤ 2^64` the Go `uint` conversion in `computeCPUCount` does
not wrap. -/
lemma goUint64_sub_one (H : Int) (h1 : 1 ≤ H) (h2 : H ≤ 2 ^ 64) :
    goUint64 (H - 1) = H.toNat - 1 := by
  unfold goUint64
  rw [Int.emod_eq_of_lt (by omega) (by omega)]
  omega

/-- `computeCPUCount` on non-inverted bounds equals the spec's clamp formula
applied to `max (H - 1) 1`. -/
lemma computeCPUCount_eq (H : Int) (mn mx : Nat)
    (h1 : 1 ≤ H) (h2 : H ≤ 2 ^ 64) (h3 : mn ≤ mx) :
    computeCPUCount H mn mx = Nat.max mn (Nat.min (Nat.max (H.toNat - 1) 1) mx) := by
  unfold computeCPUCount
  rw [goUint64_sub_one H h1 h2]
  dsimp only
  simp only [Nat.max_def, Nat.min_def]
  split_ifs <;> omega

/-- The cleanup loop over `k` consecutive permitted attempts starting at
counter value `i`: `k` graceful requests, one forced stop per iteration whose
counter exceeds 3, and the loop never observes a denial. -/
lemma cleanupGo_replicate_true (k : Nat) : ∀ i : Nat,
    cleanupGo (List.replicate k true) i = ⟨k, k - (4 - i), false⟩ := by
  induction k with
  | zero => intro i; simp [cleanupGo, List.replicate]
  | succ k ih =>
    intro i
    rw [List.replicate_succ]
    show cleanupGo (true :: List.replicate k true) i = _
    simp only [cleanupGo, if_pos, ih (i + 1)]
    refine congrArg₂ (CleanupTrace.mk · · false) ?_ ?_
    · rfl
    · split_ifs <;> omega

/-- The cleanup loop exits at the first denied `CanRequestStop` check,
ignoring everything the oracle would have answered later. -/
lemma cleanupGo_append_false (pre rest : List Bool) : ∀ i : Nat,
    (∀ b ∈ pre, b = true) →
    cleanupGo (pre ++ false :: rest) i = ⟨pre.length, pre.length - (4 - i), true⟩ := by
  induction pre with
  | nil => intro i _; simp [cleanupGo]
  | cons b pre ih =>
    intro i h
    have hb : b = true := h b (by simp)
    subst hb
    show cleanupGo (true :: (pre ++ false :: rest)) i = _
    have hpre : ∀ b ∈ pre, b = true := fun b hb => h b (by simp [hb])
    simp only [cleanupGo, if_pos, ih (i + 1) hpre]
    refine congrArg₂ (CleanupTrace.mk · · true) ?_ ?_
    · simp
    · split_ifs <;> simp <;> omega

/-- The merge loop returns no value exactly when the event stream holds no
terminal event. -/
lemma stateMergeLoop_eq_none_iff (evs : List MergeEvent) :
    stateMergeLoop evs = none ↔ ∀ ev ∈ evs, isTerminalEvent ev = false := by
  induction evs with
  | nil => simp [stateMergeLoop]
  | cons ev rest ih =>
    cases ev with
    | stateChange s =>
      by_cases hs : (s = VirtualMachineState.stopped || s = VirtualMachineState.stopping) = true
      · simp [stateMergeLoop, hs, isTerminalEvent]
      · simp only [Bool.not_eq_true] at hs
        simp [stateMergeLoop, hs, isTerminalEvent, ih]
    | completionError e => simp [stateMergeLoop, isTerminalEvent]

/-! ## Claim theorems -/

/-- C1 (counterexample): the claim says that after the attempt counter
exceeds 3 without a terminal notification, exactly one forced stop is issued
and no further forced stop is issued even if the loop continues.  In the
source the `vm.Stop` call sits inside the loop body guarded only by
`i > 3`, so with five consecutive permitted attempts the forced stop is
issued at iterations 4 and 5: two forced stops in one shutdown sequence. -/
theorem cleanup_issues_second_forced_stop :
    (cleanup [true, true, true, true, true]).forcedStops = 2 ∧
    ¬ (cleanup [true, true, true, true, true]).forcedStops ≤ 1 := by
  decide

/-- C1 (amended): once the attempt counter exceeds 3, a forced stop is issued
on every further iteration, one per attempt: `k` consecutive permitted
attempts issue `k` graceful requests and `k - 3` forced stops (so exactly one
forced stop is issued only when the loop stops being permitted right after
the 4th attempt). -/
theorem cleanup_forced_stops_count (k : Nat) :
    cleanup (List.replicate k true) = ⟨k, k - 3, false⟩ := by
  unfold cleanup
  rw [cleanupGo_replicate_true]

/-- C2 (counterexample): the claim says a non-permissible `canRequestStop`
answer only skips the attempt and the loop retries until a terminal
notification is observed.  In the source `vm.CanRequestStop()` is the `for`
loop's condition, so the very first denial terminates the loop: with the
capability denied at the first check the loop exits at once with zero
attempts, even though the capability would have been granted on a retry
(the remaining oracle answers are `true`), and no terminal notification is
consulted by the loop at all. -/
theorem cleanup_abandons_on_first_denial :
    cleanup [false, true, true] = ⟨0, 0, true⟩ := by
  decide

/-- C2 (amended): the cleanup loop exits at the first `canRequestStop`
denial, having issued one graceful request per preceding permitted check
(and one forced stop per attempt past the 3rd); it does not retry a skipped
attempt and its exit is driven solely by the capability flag, not by a
terminal notification.  Convergence of `runVM` as a whole instead comes from
the final blocking receive on `errCh` (line 101), which waits for the merge
loop's terminal value. -/
theorem cleanup_exit_at_first_denial (pre rest : List Bool)
    (h : ∀ b ∈ pre, b = true) :
    cleanup (pre ++ false :: rest) = ⟨pre.length, pre.length - 3, true⟩ := by
  unfold cleanup
  rw [cleanupGo_append_false pre rest 1 h]

/-- Witness for `cleanup_exit_at_first_denial`: four permitted attempts, then
a denial: 4 graceful requests, exactly one forced stop, loop exited. -/
theorem cleanup_exit_at_first_denial_witness :
    cleanup ([true, true, true, true] ++ false :: [true]) = ⟨4, 1, true⟩ :=
  cleanup_exit_at_first_denial [true, true, true, true] [true] (by decide)

/-- C3 (confirmed): in the merge loop, the first terminal signal observed
from either source determines the reported outcome: for any interleaving
that is terminal-free up to an event `t` that is terminal (a
Stopped/Stopping notification or a completion-callback error), the loop
returns the outcome of `t` — `nil` for a notification, the wrapped start
error for a callback error — and the result does not depend on anything
after `t`, so no second terminal signal is processed, and a completion
error arriving after an observed terminal success never replaces the `nil`
result that `runVM` returns. -/
theorem mergeLoop_first_terminal_wins (pre post : List MergeEvent) (t : MergeEvent)
    (hpre : ∀ ev ∈ pre, isTerminalEvent ev = false)
    (ht : isTerminalEvent t = true) :
    stateMergeLoop (pre ++ t :: post) = some (eventOutcome t) ∧
    ∀ (c : Bool) (can : List Bool),
      (runVM c can (pre ++ t :: post)).result = some (eventOutcome t) := by
  have key : stateMergeLoop (pre ++ t :: post) = some (eventOutcome t) := by
    induction pre with
    | nil =>
      cases t with
      | stateChange s =>
        simp only [isTerminalEvent] at ht
        simp [stateMergeLoop, eventOutcome, ht]
      | completionError e => rfl
    | cons ev pre ih =>
      have hev := hpre ev (by simp)
      cases ev with
      | stateChange s =>
        simp only [isTerminalEvent] at hev
        simp only [List.cons_append, stateMergeLoop, hev, if_false]
        exact ih (fun e he => hpre e (by simp [he]))
      | completionError e => simp [isTerminalEvent] at hev
  exact ⟨key, fun c can => key⟩

/-- Witness for `mergeLoop_first_terminal_wins`: a Running notification, then
a Stopped notification, then a late completion error: the result is the
success (`nil`), not the late error. -/
theorem mergeLoop_first_terminal_wins_witness :
    stateMergeLoop
        ([MergeEvent.stateChange .running] ++
          MergeEvent.stateChange .stopped :: [MergeEvent.completionError "late"]) =
      some (eventOutcome (MergeEvent.stateChange .stopped)) ∧
    ∀ (c : Bool) (can : List Bool),
      (runVM c can
          ([MergeEvent.stateChange .running] ++
            MergeEvent.stateChange .stopped :: [MergeEvent.completionError "late"])).result =
        some (eventOutcome (MergeEvent.stateChange .stopped)) :=
  mergeLoop_first_terminal_wins [MergeEvent.stateChange .running]
    [MergeEvent.completionError "late"] (MergeEvent.stateChange .stopped)
    (by decide) (by decide)

/-- C4 (counterexample): the claim says inverted bounds surface a
ResourceBoundsError.  The source planners return plain unsigned integers and
have no error path at all: at the inverted memory bounds min = 10, max = 2
the code returns the value 10, where the spec-modelled fallible planner
errors. -/
theorem planner_inverted_bounds_yield_value :
    computeMemorySize 10 2 = 10 ∧ computeCPUCount 5 10 2 = 10 ∧
    clampMemorySpec 10 2 = Except.error ResourceBoundsError.inverted := by
  refine ⟨by decide, by decide, rfl⟩

/-- C4 (amended): the planners are infallible — they perform no fallible work
for any bounds.  The code agrees with the spec-modelled fallible planner
exactly on non-inverted bounds; on inverted bounds the spec planner errors
while the code planner silently returns the min bound. -/
theorem planner_refines_spec_only_on_ordered_bounds (mn mx : Nat) :
    (mn ≤ mx → clampMemorySpec mn mx = Except.ok (computeMemorySize mn mx)) ∧
    (mx < mn → clampMemorySpec mn mx = Except.error ResourceBoundsError.inverted ∧
      computeMemorySize mn mx = mn) := by
  constructor
  · intro h
    unfold clampMemorySpec
    rw [if_neg (by omega), computeMemorySize_eq mn mx h]
  · intro h
    exact ⟨by unfold clampMemorySpec; rw [if_pos h], computeMemorySize_inverted mn mx h⟩

/-- Witness for `planner_refines_spec_only_on_ordered_bounds` at the ordered
bounds min = 2, max = 8. -/
theorem planner_refines_spec_only_on_ordered_bounds_witness :
    clampMemorySpec 2 8 = Except.ok (computeMemorySize 2 8) :=
  (planner_refines_spec_only_on_ordered_bounds 2 8).1 (by decide)

/-- C5 (confirmed): for every host logical core count `1 ≤ H` (within the
Go `int` range, so the `uint` conversion does not wrap) and bounds
`min ≤ max`, `computeCPUCount` equals `max min (min C max)` with
`C = max (H - 1) 1`, and the computation is idempotent: re-applying the
source's clamp sequence to the planned value leaves it unchanged.  The
function is deterministic by construction (it is a pure function). -/
theorem computeCPUCount_spec (H : Int) (mn mx : Nat)
    (h1 : 1 ≤ H) (h2 : H ≤ 2 ^ 64) (h3 : mn ≤ mx) :
    computeCPUCount H mn mx = Nat.max mn (Nat.min (Nat.max (H.toNat - 1) 1) mx) ∧
    clampGo (computeCPUCount H mn mx) mn mx = computeCPUCount H mn mx := by
  have he := computeCPUCount_eq H mn mx h1 h2 h3
  refine ⟨he, ?_⟩
  rw [he, clampGo_eq _ _ _ h3]
  simp only [Nat.max_def, Nat.min_def]
  split_ifs <;> omega

/-- Witness for `computeCPUCount_spec`: min = 1, max = 8, host cores = 5
gives the planned CPU count 4. -/
theorem computeCPUCount_spec_witness :
    (computeCPUCount 5 1 8 = Nat.max 1 (Nat.min (Nat.max ((5 : Int).toNat - 1) 1) 8) ∧
      clampGo (computeCPUCount 5 1 8) 1 8 = computeCPUCount 5 1 8) ∧
    computeCPUCount 5 1 8 = 4 :=
  ⟨computeCPUCount_spec 5 1 8 (by decide) (by decide) (by decide), by decide⟩

/-- C6 (confirmed): with the earlier stages successful, a non-nil validation
error is propagated wrapped as the configuration error, and
`validated == false` with a nil error is surfaced as the explicit
"invalid configuration" error — never as a nil-error success. -/
theorem setupVMConfiguration_validate_mapping (cpu mem : Nat)
    (d : VirtioBlockDevice) (validated : Bool) (e : GoError) :
    setupVMConfiguration cpu mem (.ok d) validated (some e) =
      .error ("failed to validate configuration: " ++ e) ∧
    setupVMConfiguration cpu mem (.ok d) false none =
      .error "invalid configuration" := by
  exact ⟨rfl, rfl⟩

/-- C7 (confirmed): an already-exists failure of disk-image creation is
treated exactly like creation success — configuration proceeds against the
existing image at the same path, and when the attachment step succeeds the
block device is returned with no error; any other creation failure aborts
with a wrapped error and no device is configured, whatever the attachment
oracle would have answered. -/
theorem createBlockDevice_idempotent (diskPath : String)
    (attachResult : Except GoError Unit) (e : GoError) :
    createBlockDeviceConfiguration diskPath .errExist attachResult =
      createBlockDeviceConfiguration diskPath .ok attachResult ∧
    createBlockDeviceConfiguration diskPath .errExist (.ok ()) =
      .ok ⟨⟨diskPath, false⟩⟩ ∧
    createBlockDeviceConfiguration diskPath (.errOther e) attachResult =
      .error ("failed to create disk image: " ++ e) := by
  exact ⟨rfl, rfl, rfl⟩

/-- C8 (confirmed): for bounds min ≤ max the planned memory size is the
default 4 GiB clamped into [min, max], i.e. `max min (min 4GiB max)`. -/
theorem computeMemorySize_spec (mn mx : Nat) (h : mn ≤ mx) :
    computeMemorySize mn mx = Nat.max mn (Nat.min (4 * 1024 * 1024 * 1024) mx) :=
  computeMemorySize_eq mn mx h

/-- Witness for `computeMemorySize_spec`: min = 512 MiB, max = 8 GiB gives
exactly 4 GiB, unchanged. -/
theorem computeMemorySize_spec_witness :
    computeMemorySize (512 * 1024 * 1024) (8 * 1024 * 1024 * 1024) =
      Nat.max (512 * 1024 * 1024) (Nat.min (4 * 1024 * 1024 * 1024) (8 * 1024 * 1024 * 1024)) ∧
    computeMemorySize (512 * 1024 * 1024) (8 * 1024 * 1024 * 1024) =
      4 * 1024 * 1024 * 1024 :=
  ⟨computeMemorySize_spec (512 * 1024 * 1024) (8 * 1024 * 1024 * 1024) (by norm_num),
    by norm_num [computeMemorySize]⟩

/-- C9 (counterexample): the claim says `run` returns early when the context
is cancelled before Stopping is entered.  The source never reads `ctx`
inside `runVM`: with the context cancelled from the start and no terminal
event ever arriving, `run` does not return at all (the final `<-errCh`
blocks forever), and for any event stream a cancelled context produces
exactly the outcome of a live context. -/
theorem run_ignores_cancelled_context :
    (run true [false] []).result = none ∧
    run true [false] [MergeEvent.stateChange .stopped] =
      run false [false] [MergeEvent.stateChange .stopped] := by
  refine ⟨rfl, rfl⟩

/-- C9 (amended): `run` in VM mode ignores the supplied context entirely:
its outcome depends only on the platform oracles (the context-cancellation
flag never changes the outcome), and it blocks — returns no result — exactly
as long as the merged event stream holds no terminal event, regardless of
cancellation.  Once a terminal event arrives the result is produced whether
or not the context was cancelled; the cleanup loop likewise runs identically
under both contexts. -/
theorem run_context_independent (c1 c2 : Bool) (can : List Bool)
    (evs : List MergeEvent) :
    run c1 can evs = run c2 can evs ∧
    ((run c1 can evs).result = none ↔ ∀ ev ∈ evs, isTerminalEvent ev = false) := by
  exact ⟨rfl, stateMergeLoop_eq_none_iff evs⟩

/-- Witness for `run_context_independent`: cancelled vs live context over a
stream ending in a Stopped notification give identical outcomes. -/
theorem run_context_independent_witness :
    run true [false] [MergeEvent.stateChange .stopped] =
      run false [false] [MergeEvent.stateChange .stopped] :=
  (run_context_independent true false [false] [MergeEvent.stateChange .stopped]).1

/-- C10 (confirmed): for inverted bounds min > max both planners are total
and return exactly the min bound — the max clamp is applied first and the
min clamp last, so the min bound wins — and no error value is produced (the
return types are plain unsigned integers). -/
theorem planners_inverted_bounds_return_min (H : Int) (mn mx : Nat)
    (hinv : mx < mn) :
    computeCPUCount H mn mx = mn ∧ computeMemorySize mn mx = mn :=
  ⟨computeCPUCount_inverted H mn mx hinv, computeMemorySize_inverted mn mx hinv⟩

/-- Witness for `planners_inverted_bounds_return_min` at host cores 5,
min = 10, max = 2: both planners return 10. -/
theorem planners_inverted_bounds_return_min_witness :
    computeCPUCount 5 10 2 = 10 ∧ computeMemorySize 10 2 = 10 :=
  planners_inverted_bounds_return_min 5 10 2 (by decide)

end VzMacOS
